import Mathlib

/-!
Verification development for the `plotly_dash` dashboard scripts.

The repository contains four self-contained Dash dashboards.  The logic under
verification is the reactive filter→recompute→re-render pipeline of each
variant, together with the dataset loaders:

* `test3.plotly（earthquake）.py`: `EarthquakeDataLoader.load_and_clean` and the
  callback `update_charts` (year-range filter, map + histogram + stats card);
* `test4（局部放大图）.py`: `load_and_process_data`, `clean_data`,
  `create_financial_chart` and the callback `update_chart` (date-range filter,
  five-trace difference chart, optional y-axis override);
* `test。plotly.py`: `generate_simulation_data` and the callback `update_graph`;
* `app.py`: `DataManager._load_data` (iris loader with NotFound / Malformed
  failure kinds).

Pandas frames are embedded as Lean lists of per-row structures; numeric cell
values are rationals, with `Option` marking cells that are NaN after pandas'
best-effort coercion (`errors='coerce'` producing NaT/NaN, later `dropna`).
Timestamps are embedded as a year component plus a within-year ordinal,
ordered lexicographically; `pandas.sort_values` is embedded as `List.mergeSort`
(a stable sort, as in pandas with a total key order).  Plotly figures are
embedded as a list of traces (coordinate-pair sequences) plus the optional
y-axis range override; styling attributes (colors, fonts, margins, titles) are
presentation-only and are not part of the embedding.
-/

/-- A timestamp value (`pandas` datetime): year component plus a within-year
ordinal, compared lexicographically.  `df['Datetime'].dt.year` is the `year`
projection. -/
structure DT where
  year : Int
  ord : Int
  deriving DecidableEq

/-- Lexicographic order on timestamps, as `Bool`, used as the sort key for
`df.sort_values(by='Datetime')`. -/
def dtLe (a b : DT) : Bool :=
  a.year < b.year || (a.year == b.year && a.ord ≤ b.ord)

/-- A raw earthquake CSV row after pandas' best-effort coercion of the `Date`
column (`pd.to_datetime(df['Date'], utc=True, errors='coerce')`): `datetime`
is `none` exactly when the coercion produced NaT.  The `Magnitude`, `Latitude`
and `Longitude` columns are read as-is; the loader applies no coercion or
validation to them (`magnitude` is `none` when the CSV cell is NaN). -/
structure EqRawRow where
  datetime : Option DT
  magnitude : Option ℚ
  latitude : ℚ
  longitude : ℚ
  deriving DecidableEq

/-- A cleaned earthquake row as produced by `EarthquakeDataLoader.load_and_clean`:
`Datetime` parsed, `Year` extracted, the remaining columns untouched. -/
structure EqRow where
  datetime : DT
  year : Int
  magnitude : Option ℚ
  latitude : ℚ
  longitude : ℚ
  deriving DecidableEq

/-- Sort key for cleaned earthquake rows: ascending `Datetime`. -/
def eqRowLe (a b : EqRow) : Bool :=
  dtLe a.datetime b.datetime

/-- Embedding of `EarthquakeDataLoader.load_and_clean` (test3, lines 49-77):
coerce `Date` to `Datetime` (rows whose coercion failed are dropped by
`dropna(subset=['Datetime'])`), extract `Year = Datetime.dt.year`, and sort by
`Datetime` ascending.  No other column is validated or dropped. -/
def EarthquakeDataLoader_load_and_clean (raw : List EqRawRow) : List EqRow :=
  (raw.filterMap fun r =>
    r.datetime.map fun dt =>
      { datetime := dt, year := dt.year, magnitude := r.magnitude,
        latitude := r.latitude, longitude := r.longitude }).mergeSort eqRowLe

/-- Embedding of the row slice in `update_charts` (test3, line 236):
`df[(df['Year'] >= year_range[0]) & (df['Year'] <= year_range[1])]`. -/
def filterByYear (df : List EqRow) (lo hi : Int) : List EqRow :=
  df.filter fun r => lo ≤ r.year && r.year ≤ hi

/-- One plotly trace: the sequences of x- and y-coordinates handed to the
renderer.  Visual encoding attributes are presentation-only and omitted. -/
structure Trace where
  xs : List ℚ
  ys : List ℚ
  deriving DecidableEq

/-- A declarative chart description: trace list plus the optional explicit
y-axis range (`yaxis_range` layout override; `none` means the renderer
auto-fits the axis to the plotted data's full extent). -/
structure Figure where
  traces : List Trace
  yaxisRange : Option (ℚ × ℚ)
  deriving DecidableEq

/-- The empty figure, embedding the `{}` returned by `update_charts` when the
filtered frame is empty. -/
def emptyFigure : Figure :=
  { traces := [], yaxisRange := none }

/-- The valid (non-NaN) values of the `Magnitude` column, in row order.
Pandas aggregations (`max`, `mean`) skip NaN cells. -/
def magVals (df : List EqRow) : List ℚ :=
  df.filterMap fun r => r.magnitude

/-- Maximum of a list of rationals, `none` on the empty list (pandas `max`
over an all-NaN column is NaN). -/
def listMax : List ℚ → Option ℚ
  | [] => none
  | x :: xs =>
    match listMax xs with
    | none => some x
    | some m => some (max x m)

/-- Embedding of `filtered_df['Magnitude'].max()` (NaN-skipping). -/
def magMax (df : List EqRow) : Option ℚ :=
  listMax (magVals df)

/-- Embedding of `filtered_df['Magnitude'].mean()` (NaN-skipping arithmetic
mean; `none` when no valid value exists). -/
def magMean (df : List EqRow) : Option ℚ :=
  if (magVals df).length = 0 then none
  else some ((magVals df).sum / (magVals df).length)

/-- Embedding of `max_quake = df.loc[df['Magnitude'].idxmax()]` (test3,
line 100): `idxmax` skips NaN and returns the first index attaining the
maximal valid magnitude, and `df.loc` then selects that row; when the column
holds no valid value (all cells NaN, or an empty frame) pandas raises there,
modeled as `none`. -/
def maxQuakeRow (df : List EqRow) : Option EqRow :=
  match magMax df with
  | none => none
  | some m => df.find? fun r => r.magnitude == some m

/-- Embedding of `ChartFactory.create_global_map` (test3, lines 94-130): the
automatic insight `max_quake = df.loc[df['Magnitude'].idxmax()]` is computed
first and raises — result `none` — when the frame has no valid magnitude; on
success the figure holds one scatter-map trace whose points are the
(longitude, latitude) pairs of the frame (the annotation text built from
`max_quake` is presentation-only). -/
def ChartFactory_create_global_map (df : List EqRow) : Option Figure :=
  match maxQuakeRow df with
  | none => none
  | some _ =>
    some { traces := [{ xs := df.map fun r => r.longitude,
                        ys := df.map fun r => r.latitude }],
           yaxisRange := none }

/-- Embedding of `ChartFactory.create_magnitude_hist` (test3): one histogram
trace over the `Magnitude` column. -/
def ChartFactory_create_magnitude_hist (df : List EqRow) : Figure :=
  { traces := [{ xs := magVals df, ys := [] }],
    yaxisRange := none }

/-- The stats-card region of the earthquake dashboard: either the bare
"no data" notice string (empty-filter branch, test3 line 240), or the summary
card listing row count, maximum magnitude and mean magnitude
(test3 lines 247-252). -/
inductive StatsCard where
  | noData (msg : String)
  | card (count : Nat) (maxMag : Option ℚ) (meanMag : Option ℚ)
  deriving DecidableEq

/-- The triple returned by the earthquake callback: map figure, histogram
figure, stats-card children. -/
structure EqOutput where
  mapFig : Figure
  histFig : Figure
  stats : StatsCard
  deriving DecidableEq

/-- Embedding of the callback `update_charts` (test3, lines 234-254): slice
the frame by the inclusive year range; if the slice is empty return two empty
figures and the notice string; otherwise build the map chart first — a step
that raises (result `none`, the exception propagating out of the callback)
when the slice holds no valid magnitude — then the histogram and the summary
card (count, max magnitude, mean magnitude). -/
def update_charts (df : List EqRow) (yearRange : Int × Int) : Option EqOutput :=
  let filtered := filterByYear df yearRange.1 yearRange.2
  if filtered.isEmpty then
    some { mapFig := emptyFigure, histFig := emptyFigure,
           stats := .noData "所选范围内无数据" }
  else
    match ChartFactory_create_global_map filtered with
    | none => none
    | some mapFig =>
      some { mapFig := mapFig,
             histFig := ChartFactory_create_magnitude_hist filtered,
             stats := .card filtered.length (magMax filtered) (magMean filtered) }

/-- State-passing form of the earthquake callback: the second component is
the dataset as left behind by the callback body, which contains no write to
`df` (the slice `df[...]` allocates a fresh frame; the exception path also
performs no write). -/
def update_charts_step (df : List EqRow) (yearRange : Int × Int) :
    Option EqOutput × List EqRow :=
  (update_charts df yearRange, df)

/-- A raw Dow Jones CSV row after pandas coercion (`pd.to_datetime` on `Date`,
`pd.to_numeric(..., errors='coerce')` on `Value` and `MA`): `none` marks a
NaT/NaN cell, later removed by `dropna(subset=['Date', 'Value', 'MA'])`. -/
structure DowRawRow where
  date : Option Int
  value : Option ℚ
  ma : Option ℚ
  deriving DecidableEq

/-- A cleaned Dow Jones row as produced by `clean_data`: valid `Date`,
`Value`, `MA`, plus the derived `Upper_Bound` and `Lower_Bound` columns. -/
structure DowRow where
  date : Int
  value : ℚ
  ma : ℚ
  upperBound : ℚ
  lowerBound : ℚ
  deriving DecidableEq

/-- Sort key for cleaned Dow Jones rows: ascending `Date`. -/
def dowRowLe (a b : DowRow) : Bool :=
  a.date ≤ b.date

/-- Embedding of `clean_data` (test4, lines 50-94): coerce `Date`, `Value`,
`MA`; drop rows with a missing value in any of the three; derive
`Upper_Bound = np.maximum(Value, MA)` and `Lower_Bound = np.minimum(Value, MA)`
per row; sort by `Date` ascending. -/
def clean_data (raw : List DowRawRow) : List DowRow :=
  (raw.filterMap fun r =>
    match r.date, r.value, r.ma with
    | some d, some v, some m =>
      some { date := d, value := v, ma := m,
             upperBound := max v m, lowerBound := min v m }
    | _, _, _ => none).mergeSort dowRowLe

/-- Embedding of the row slice in `update_chart` (test4, lines 294-295):
`mask = (df['Date'] >= start_date) & (df['Date'] <= end_date)`. -/
def filterByDate (df : List DowRow) (lo hi : Int) : List DowRow :=
  df.filter fun r => lo ≤ r.date && r.date ≤ hi

/-- Embedding of `create_financial_chart` (test4, lines 100-193): always five
traces (MA line, upper-bound fill, MA fill baseline, lower-bound fill, price
line) over the frame's rows; `yaxis_range` is applied only when a range was
passed and its lower bound is strictly below its upper bound (line 190). -/
def create_financial_chart (df : List DowRow) (yRange : Option (ℚ × ℚ)) :
    Figure :=
  let dates := df.map fun r => (r.date : ℚ)
  { traces := [
      { xs := dates, ys := df.map fun r => r.ma },
      { xs := dates, ys := df.map fun r => r.upperBound },
      { xs := dates, ys := df.map fun r => r.ma },
      { xs := dates, ys := df.map fun r => r.lowerBound },
      { xs := dates, ys := df.map fun r => r.value } ],
    yaxisRange :=
      match yRange with
      | some p => if p.1 < p.2 then some p else none
      | none => none }

/-- Embedding of the callback `update_chart` (test4, lines 288-303): slice the
frame by the inclusive date range; validate the y-axis inputs (`y_range` is
set only when both are non-null and `y_min < y_max`, line 299); build the
chart. -/
def update_chart (df : List DowRow) (dateRange : Int × Int)
    (yMin yMax : Option ℚ) : Figure :=
  let filtered := filterByDate df dateRange.1 dateRange.2
  let yRange : Option (ℚ × ℚ) :=
    match yMin, yMax with
    | some a, some b => if a < b then some (a, b) else none
    | _, _ => none
  create_financial_chart filtered yRange

/-- State-passing form of the Dow Jones callback: the second component is the
dataset as left behind by the callback body, which contains no write to `df`
(`df.loc[mask]` allocates a fresh frame). -/
def update_chart_step (df : List DowRow) (dateRange : Int × Int)
    (yMin yMax : Option ℚ) : Figure × List DowRow :=
  (update_chart df dateRange yMin yMax, df)

/-- The i-th sample abscissa of `np.linspace(0, 10, 500)`: `10 * i / 499`,
so that sample 0 is 0, sample 499 is 10, and consecutive samples differ by
the constant step `10 / 499`. -/
def simT (i : Nat) : ℚ :=
  10 * i / 499

/-- Embedding of `generate_simulation_data` (test。plotly, lines 50-53):
`t = np.linspace(0, 10, 500)` and
`y = amplitude * np.exp(-decay * t) * np.cos(frequency * t)`, as the list of
500 (x, y) pairs.  The function draws no randomness and reads no clock. -/
noncomputable def generate_simulation_data (amplitude frequency decay : ℝ) :
    List (ℝ × ℝ) :=
  (List.range 500).map fun i =>
    (((simT i : ℚ) : ℝ),
      amplitude * Real.exp (-decay * ((simT i : ℚ) : ℝ)) *
        Real.cos (frequency * ((simT i : ℚ) : ℝ)))

/-- The single-trace figure of the simulation dashboard (real-valued
coordinates). -/
structure SimFigure where
  traceXs : List ℝ
  traceYs : List ℝ

/-- Embedding of the callback `update_graph` (test。plotly, lines 93-105):
generate the simulation data for the current slider triple and wrap it in a
one-trace figure. -/
noncomputable def update_graph (amp freq decay : ℝ) : SimFigure :=
  let d := generate_simulation_data amp freq decay
  { traceXs := d.map fun p => p.1, traceYs := d.map fun p => p.2 }

/-- A parsed CSV file: header column names plus rows of string cells. -/
structure Csv where
  columns : List String
  rows : List (List String)
  deriving DecidableEq

/-- The two startup failure kinds of dataset loading: backing file absent
(`FileNotFoundError`), or required columns missing / data malformed
(`ValueError` re-raised as `RuntimeError` in `DataManager._load_data`). -/
inductive LoadError where
  | notFound
  | malformed
  deriving DecidableEq

/-- The columns `DataManager._load_data` requires of the iris dataset
(app.py, line 68). -/
def requiredCols : List String :=
  ["SepalLength", "SepalWidth", "PetalLength", "PetalWidth", "Name"]

/-- Embedding of the display rename in `DataManager._load_data` (app.py,
line 73): `c.replace('Iris-', '') if 'Iris' in c else c`. -/
def renameIris (c : String) : String :=
  if (c.splitOn "Iris").length ≠ 1 then c.replace "Iris-" "" else c

/-- Embedding of `DataManager._load_data` (app.py, lines 58-76): `none` input
models an absent backing file (`os.path.exists` false → `FileNotFoundError`,
the NotFound kind); a present file with a required column missing raises
`ValueError`, re-raised as `RuntimeError` (the Malformed kind); otherwise the
dataset is returned with display-renamed columns.  An `Except.error` result
carries no dataset value: the exception propagates out of `create_app` and no
dashboard is served. -/
def DataManager_load_data (file : Option Csv) : Except LoadError Csv :=
  match file with
  | none => .error .notFound
  | some csv =>
    if requiredCols.all (fun c => csv.columns.contains c) then
      .ok { csv with columns := csv.columns.map renameIris }
    else
      .error .malformed

/-- Embedding of `load_and_process_data` (test4, lines 35-47): `none` input
models an absent backing file (`os.path.exists` false → `FileNotFoundError`);
a present file is read and returned. -/
def load_and_process_data (file : Option Csv) : Except LoadError Csv :=
  match file with
  | none => .error .notFound
  | some csv => .ok csv

/-- A synthetic earthquake row with a given year, used for concrete checks. -/
def sampleYearRow (y : Int) : EqRow :=
  { datetime := { year := y, ord := 0 }, year := y, magnitude := some 5,
    latitude := 0, longitude := 0 }

/-- An eleven-row earthquake dataset with years 1960 through 1970. -/
def sampleYears : List EqRow :=
  [sampleYearRow 1960, sampleYearRow 1961, sampleYearRow 1962, sampleYearRow 1963,
   sampleYearRow 1964, sampleYearRow 1965, sampleYearRow 1966, sampleYearRow 1967,
   sampleYearRow 1968, sampleYearRow 1969, sampleYearRow 1970]

/-- A one-row Dow Jones dataset (date 5, value 100, moving average 90). -/
def dowSampleRow : DowRow :=
  { date := 5, value := 100, ma := 90, upperBound := 100, lowerBound := 90 }

/-- Claim C1: for every fixed dataset and every fixed tuple of filter
parameter values, invoking the recompute callback (`update_charts`,
`update_chart`, or `update_graph`) twice with identical inputs yields
identical chart descriptions and summary text: each pipeline is a pure
function of (dataset, filter parameters) with no hidden mutable state,
randomness, or wall-clock dependence. -/
theorem claim1_pipeline_deterministic (eqDf : List EqRow) (dowDf : List DowRow)
    (p q : Int × Int) (dr ds : Int × Int) (ym1 yx1 ym2 yx2 : Option ℚ)
    (a f k b g l : ℝ)
    (hp : p = q) (hd : dr = ds) (hm : ym1 = ym2) (hx : yx1 = yx2)
    (ha : a = b) (hf : f = g) (hk : k = l) :
    update_charts eqDf p = update_charts eqDf q ∧
    update_chart dowDf dr ym1 yx1 = update_chart dowDf ds ym2 yx2 ∧
    update_graph a f k = update_graph b g l := by
  subst hp hd hm hx ha hf hk
  exact ⟨rfl, rfl, rfl⟩

/-- Claim C1 witness: the three callbacks, each invoked twice at one concrete
parameter tuple, agree. -/
theorem claim1_witness :
    update_charts sampleYears (1965, 1968) = update_charts sampleYears (1965, 1968) ∧
    update_chart [dowSampleRow] (0, 10) none none =
      update_chart [dowSampleRow] (0, 10) none none ∧
    update_graph 5 10 0.2 = update_graph 5 10 0.2 :=
  claim1_pipeline_deterministic sampleYears [dowSampleRow] (1965, 1968) (1965, 1968)
    (0, 10) (0, 10) none none none none 5 10 0.2 5 10 0.2
    rfl rfl rfl rfl rfl rfl rfl

/-- Claim C2: row filtering on the ordering field is inclusive on both ends —
for every dataset and every bound pair the derived view contains exactly the
rows whose ordering-field value lies between the bounds inclusively; on the
dataset with years 1960 through 1970 and filter [1965, 1968] the derived view
is exactly the rows with years 1965, 1966, 1967, 1968. -/
theorem claim2_filter_inclusive :
    (∀ (df : List EqRow) (lo hi : Int) (r : EqRow),
      r ∈ filterByYear df lo hi ↔ r ∈ df ∧ lo ≤ r.year ∧ r.year ≤ hi) ∧
    (∀ (df : List DowRow) (lo hi : Int) (r : DowRow),
      r ∈ filterByDate df lo hi ↔ r ∈ df ∧ lo ≤ r.date ∧ r.date ≤ hi) ∧
    (filterByYear sampleYears 1965 1968).map (fun r => r.year) =
      [1965, 1966, 1967, 1968] := by
  refine ⟨?_, ?_, ?_⟩
  · intro df lo hi r
    simp [filterByYear, List.mem_filter, and_assoc]
  · intro df lo hi r
    simp [filterByDate, List.mem_filter, and_assoc]
  · decide

/-- Claim C3 counterexample: on a one-row Dow Jones dataset the date range
(10, 20) selects zero rows, yet the Dow Jones callback returns a chart with
five traces — not a chart with zero traces plus a "no data" notice, as the
claim asserts for every variant. -/
theorem claim3_counterexample :
    filterByDate [dowSampleRow] 10 20 = [] ∧
    (update_chart [dowSampleRow] (10, 20) none none).traces.length = 5 ∧
    ¬ (update_chart [dowSampleRow] (10, 20) none none).traces = [] := by
  refine ⟨by decide, by decide, by decide⟩

/-- Claim C3 (amended): when the filter selects zero rows, the earthquake
callback returns two zero-trace figures plus the non-empty notice string
"所选范围内无数据" and never an exception (the empty branch returns before
the raising map-building step); the Dow Jones callback instead returns
(without an exception) a chart with five traces whose coordinate sequences
are all empty, and no notice. -/
theorem claim3_empty_filter_handling (eqDf : List EqRow) (p : Int × Int)
    (dowDf : List DowRow) (dr : Int × Int) (ymn ymx : Option ℚ)
    (hEq : filterByYear eqDf p.1 p.2 = [])
    (hDow : filterByDate dowDf dr.1 dr.2 = []) :
    update_charts eqDf p =
      some { mapFig := emptyFigure, histFig := emptyFigure,
             stats := .noData "所选范围内无数据" } ∧
    "所选范围内无数据" ≠ "" ∧
    (update_chart dowDf dr ymn ymx).traces =
      [{ xs := [], ys := [] }, { xs := [], ys := [] }, { xs := [], ys := [] },
       { xs := [], ys := [] }, { xs := [], ys := [] }] := by
  refine ⟨?_, by decide, ?_⟩
  · simp [update_charts, hEq]
  · simp [update_chart, create_financial_chart, hDow]

/-- Claim C3 amended witness: concrete empty-selection inputs for both
callbacks. -/
theorem claim3_witness :
    update_charts [] (1965, 1968) =
      some { mapFig := emptyFigure, histFig := emptyFigure,
             stats := .noData "所选范围内无数据" } ∧
    "所选范围内无数据" ≠ "" ∧
    (update_chart [dowSampleRow] (10, 20) none none).traces =
      [{ xs := [], ys := [] }, { xs := [], ys := [] }, { xs := [], ys := [] },
       { xs := [], ys := [] }, { xs := [], ys := [] }] :=
  claim3_empty_filter_handling [] (1965, 1968) [dowSampleRow] (10, 20) none none
    (by decide) (by decide)

/-- Claim C4: an invalid y-axis bound pair (either bound missing, or
min ≥ max) is never propagated as an error: the y-axis override is applied
only when both bounds are non-null and y_min < y_max; otherwise the chart
keeps `yaxisRange = none`, i.e. the renderer auto-fits the axis to the data's
full extent, and a renderable five-trace chart is still returned. -/
theorem claim4_invalid_bounds_degrade (df : List DowRow) (dr : Int × Int)
    (ymn ymx : Option ℚ) :
    ((ymn = none ∨ ymx = none) → (update_chart df dr ymn ymx).yaxisRange = none) ∧
    (∀ a b : ℚ, ymn = some a → ymx = some b → b ≤ a →
      (update_chart df dr ymn ymx).yaxisRange = none) ∧
    (∀ a b : ℚ, ymn = some a → ymx = some b → a < b →
      (update_chart df dr ymn ymx).yaxisRange = some (a, b)) ∧
    (update_chart df dr ymn ymx).traces.length = 5 := by
  refine ⟨?_, ?_, ?_, ?_⟩
  · rintro (rfl | rfl)
    · cases ymx <;> simp [update_chart, create_financial_chart]
    · cases ymn <;> simp [update_chart, create_financial_chart]
  · rintro a b rfl rfl hba
    simp [update_chart, create_financial_chart, not_lt.mpr hba]
  · rintro a b rfl rfl hab
    simp [update_chart, create_financial_chart, hab]
  · cases ymn <;> cases ymx <;> simp [update_chart, create_financial_chart]

/-- Claim C4 witness: at the concrete invalid pair y_min = 2, y_max = 1 the
callback returns a five-trace chart with no y-axis override. -/
theorem claim4_witness :
    (update_chart [dowSampleRow] (0, 10) (some 2) (some 1)).yaxisRange = none ∧
    (update_chart [dowSampleRow] (0, 10) (some 2) (some 1)).traces.length = 5 := by
  have h := claim4_invalid_bounds_degrade [dowSampleRow] (0, 10) (some 2) (some 1)
  exact ⟨h.2.1 2 1 rfl rfl (by norm_num), h.2.2.2⟩

/-- Claim C7: dataset loading fails with the NotFound kind when the backing
file is absent and with the distinct Malformed kind when required columns are
missing; in both cases no dataset value is returned (the failure is fatal at
startup). -/
theorem claim7_load_error_kinds :
    DataManager_load_data none = .error .notFound ∧
    (∀ csv : Csv, requiredCols.all (fun c => csv.columns.contains c) = false →
      DataManager_load_data (some csv) = .error .malformed) ∧
    LoadError.notFound ≠ LoadError.malformed ∧
    load_and_process_data none = .error .notFound ∧
    (∀ d : Csv, DataManager_load_data none ≠ .ok d) ∧
    (∀ (csv d : Csv), requiredCols.all (fun c => csv.columns.contains c) = false →
      DataManager_load_data (some csv) ≠ .ok d) := by
  refine ⟨rfl, ?_, by decide, rfl, ?_, ?_⟩
  · intro csv h
    simp only [DataManager_load_data]
    rw [h]
    simp
  · intro d
    simp [DataManager_load_data]
  · intro csv d h
    simp only [DataManager_load_data]
    rw [h]
    simp

/-- Claim C7 witness: a present file lacking the required iris columns loads
as Malformed; an absent file loads as NotFound. -/
theorem claim7_witness :
    DataManager_load_data (some { columns := ["Name"], rows := [] }) =
      .error .malformed ∧
    DataManager_load_data none = .error .notFound :=
  ⟨claim7_load_error_kinds.2.1 { columns := ["Name"], rows := [] } (by decide),
   claim7_load_error_kinds.1⟩

/-- Claim C8: every invocation of the recompute pipeline leaves the loaded
dataset unchanged — in the state-passing embedding of each callback the
dataset observed after the callback returns equals the dataset observed
before. -/
theorem claim8_dataset_not_mutated (eqDf : List EqRow) (p : Int × Int)
    (dowDf : List DowRow) (dr : Int × Int) (ymn ymx : Option ℚ) :
    (update_charts_step eqDf p).2 = eqDf ∧
    (update_chart_step dowDf dr ymn ymx).2 = dowDf :=
  ⟨rfl, rfl⟩

/-- A raw earthquake row with a valid date but a NaN magnitude. -/
def badEqRaw : EqRawRow :=
  { datetime := some { year := 1980, ord := 3 }, magnitude := none,
    latitude := 1, longitude := 2 }

/-- The cleaned row arising from `badEqRaw`: its magnitude is still NaN. -/
def badEqClean : EqRow :=
  { datetime := { year := 1980, ord := 3 }, year := 1980, magnitude := none,
    latitude := 1, longitude := 2 }

/-- Claim C6: for the fixed parameter triple (amplitude=5, frequency=10,
decay=0.2), `generate_simulation_data` produces exactly 500 (x, y) pairs; the
x-values are evenly spaced over the closed domain [0, 10] (sample i is
10·i/499, so sample 0 is 0, sample 499 is 10, and the step is the constant
10/499); every y-value equals amplitude · exp(−decay·x) · cos(frequency·x);
and the produced sequence is identical across repeated invocations. -/
theorem claim6_simulation_determinism :
    (generate_simulation_data 5 10 0.2).length = 500 ∧
    (∀ i : Nat, i < 500 →
      (generate_simulation_data 5 10 0.2)[i]? =
        some (((simT i : ℚ) : ℝ),
          5 * Real.exp (-(0.2 : ℝ) * ((simT i : ℚ) : ℝ)) *
            Real.cos (10 * ((simT i : ℚ) : ℝ)))) ∧
    simT 0 = 0 ∧ simT 499 = 10 ∧
    (∀ i : Nat, simT (i + 1) - simT i = 10 / 499) ∧
    generate_simulation_data 5 10 0.2 = generate_simulation_data 5 10 0.2 := by
  refine ⟨?_, ?_, ?_, ?_, ?_, rfl⟩
  · simp [generate_simulation_data]
  · intro i hi
    simp [generate_simulation_data, List.getElem?_map, List.getElem?_range hi]
  · norm_num [simT]
  · norm_num [simT]
  · intro i
    simp only [simT]
    push_cast
    ring

/-- Claim C6 witness: the sample count, the first sample, and the first
spacing step, at the fixed parameter triple. -/
theorem claim6_witness :
    (generate_simulation_data 5 10 0.2).length = 500 ∧
    (generate_simulation_data 5 10 0.2)[0]? =
      some (((simT 0 : ℚ) : ℝ),
        5 * Real.exp (-(0.2 : ℝ) * ((simT 0 : ℚ) : ℝ)) *
          Real.cos (10 * ((simT 0 : ℚ) : ℝ))) ∧
    simT 1 - simT 0 = 10 / 499 :=
  ⟨claim6_simulation_determinism.1,
   claim6_simulation_determinism.2.1 0 (by decide),
   claim6_simulation_determinism.2.2.2.2.1 0⟩

/-- Helper: transitivity of the timestamp sort key. -/
theorem dtLe_trans (a b c : DT) (hab : dtLe a b = true) (hbc : dtLe b c = true) :
    dtLe a c = true := by
  simp only [dtLe, Bool.or_eq_true, Bool.and_eq_true, decide_eq_true_eq,
    beq_iff_eq] at hab hbc ⊢
  omega

/-- Helper: totality of the timestamp sort key. -/
theorem dtLe_total (a b : DT) : (dtLe a b || dtLe b a) = true := by
  simp only [dtLe, Bool.or_eq_true, Bool.and_eq_true, decide_eq_true_eq,
    beq_iff_eq]
  omega

/-- Helper: transitivity of the earthquake row sort key. -/
theorem eqRowLe_trans (a b c : EqRow) (hab : eqRowLe a b = true)
    (hbc : eqRowLe b c = true) : eqRowLe a c = true :=
  dtLe_trans _ _ _ hab hbc

/-- Helper: totality of the earthquake row sort key. -/
theorem eqRowLe_total (a b : EqRow) : (eqRowLe a b || eqRowLe b a) = true :=
  dtLe_total _ _

/-- Helper: transitivity of the Dow Jones row sort key. -/
theorem dowRowLe_trans (a b c : DowRow) (hab : dowRowLe a b = true)
    (hbc : dowRowLe b c = true) : dowRowLe a c = true := by
  simp only [dowRowLe, decide_eq_true_eq] at hab hbc ⊢
  omega

/-- Helper: totality of the Dow Jones row sort key. -/
theorem dowRowLe_total (a b : DowRow) : (dowRowLe a b || dowRowLe b a) = true := by
  simp only [dowRowLe, Bool.or_eq_true, decide_eq_true_eq]
  omega

/-- Helper: a row is in the cleaned earthquake frame iff it arises from a raw
row whose `Date` coercion succeeded, with `Year` extracted from the timestamp
and all other columns carried over unchanged. -/
theorem mem_eq_load_iff (raw : List EqRawRow) (row : EqRow) :
    row ∈ EarthquakeDataLoader_load_and_clean raw ↔
      ∃ r ∈ raw, r.datetime = some row.datetime ∧
        row.year = row.datetime.year ∧ row.magnitude = r.magnitude ∧
        row.latitude = r.latitude ∧ row.longitude = r.longitude := by
  rw [EarthquakeDataLoader_load_and_clean, List.mem_mergeSort, List.mem_filterMap]
  constructor
  · rintro ⟨r, hr, hf⟩
    rw [Option.map_eq_some'] at hf
    obtain ⟨dt, hdt, hrow⟩ := hf
    subst hrow
    exact ⟨r, hr, by simp [hdt]⟩
  · rintro ⟨r, hr, hdt, hyear, hmag, hlat, hlon⟩
    refine ⟨r, hr, ?_⟩
    rw [hdt, Option.map_some']
    show some ({ datetime := row.datetime, year := row.datetime.year,
                 magnitude := r.magnitude, latitude := r.latitude,
                 longitude := r.longitude } : EqRow) = some row
    rw [← hyear, ← hmag, ← hlat, ← hlon]

/-- Helper: a row is in the cleaned Dow Jones frame iff it arises from a raw
row with all three cells valid, with the two bound columns derived as the
pointwise maximum and minimum of `Value` and `MA`. -/
theorem mem_clean_data_iff (raw : List DowRawRow) (row : DowRow) :
    row ∈ clean_data raw ↔
      ∃ r ∈ raw, r.date = some row.date ∧ r.value = some row.value ∧
        r.ma = some row.ma ∧ row.upperBound = max row.value row.ma ∧
        row.lowerBound = min row.value row.ma := by
  rw [clean_data, List.mem_mergeSort, List.mem_filterMap]
  constructor
  · rintro ⟨r, hr, hf⟩
    obtain ⟨d0, v0, m0⟩ := r
    cases d0 with
    | none => exact Option.noConfusion hf
    | some d =>
      cases v0 with
      | none => exact Option.noConfusion hf
      | some v =>
        cases m0 with
        | none => exact Option.noConfusion hf
        | some m =>
          have hf2 : some ({ date := d, value := v, ma := m,
                             upperBound := max v m,
                             lowerBound := min v m } : DowRow) = some row := hf
          have h3 := Option.some.inj hf2
          subst h3
          exact ⟨⟨some d, some v, some m⟩, hr, rfl, rfl, rfl, rfl, rfl⟩
  · rintro ⟨r, hr, hdate, hval, hma, hub, hlb⟩
    refine ⟨r, hr, ?_⟩
    rw [hdate, hval, hma]
    show some ({ date := row.date, value := row.value, ma := row.ma,
                 upperBound := max row.value row.ma,
                 lowerBound := min row.value row.ma } : DowRow) = some row
    rw [← hub, ← hlb]

/-- Claim C9 counterexample: a raw earthquake row with a valid `Date` but a
NaN `Magnitude` survives `load_and_clean` unchanged — the loaded dataset
contains a row whose required numeric field is invalid, so rows failing
numeric coercion are not dropped at load time and do reach the pipeline. -/
theorem claim9_counterexample :
    EarthquakeDataLoader_load_and_clean [badEqRaw] = [badEqClean] ∧
    badEqClean.magnitude = none ∧
    ∃ r ∈ EarthquakeDataLoader_load_and_clean [badEqRaw], r.magnitude = none := by
  have h : EarthquakeDataLoader_load_and_clean [badEqRaw] = [badEqClean] := by
    simp [EarthquakeDataLoader_load_and_clean, badEqRaw, badEqClean,
      List.filterMap_cons, List.mergeSort_singleton]
  refine ⟨h, rfl, badEqClean, ?_, rfl⟩
  rw [h]
  exact List.mem_singleton_self _

/-- Claim C9 (amended): after loading, the rows are sorted in ascending order
of the ordering field (`Datetime` for the earthquake loader, `Date` for the
Dow Jones loader) and every row has a valid ordering-field value — rows whose
ordering-field coercion fails are dropped at load time.  The Dow Jones loader
additionally retains only rows with valid `Value` and `MA`; the earthquake
loader, by contrast, does not validate `Magnitude` (see the counterexample),
so rows failing numeric coercion there are not dropped. -/
theorem claim9_load_invariants :
    (∀ raw : List EqRawRow,
      List.Pairwise (fun a b : EqRow => eqRowLe a b = true)
        (EarthquakeDataLoader_load_and_clean raw)) ∧
    (∀ (raw : List EqRawRow) (row : EqRow),
      row ∈ EarthquakeDataLoader_load_and_clean raw ↔
        ∃ r ∈ raw, r.datetime = some row.datetime ∧
          row.year = row.datetime.year ∧ row.magnitude = r.magnitude ∧
          row.latitude = r.latitude ∧ row.longitude = r.longitude) ∧
    (∀ raw : List DowRawRow,
      List.Pairwise (fun a b : DowRow => dowRowLe a b = true) (clean_data raw)) ∧
    (∀ (raw : List DowRawRow) (row : DowRow),
      row ∈ clean_data raw ↔
        ∃ r ∈ raw, r.date = some row.date ∧ r.value = some row.value ∧
          r.ma = some row.ma ∧ row.upperBound = max row.value row.ma ∧
          row.lowerBound = min row.value row.ma) :=
  ⟨fun _ => List.sorted_mergeSort eqRowLe_trans eqRowLe_total _,
   mem_eq_load_iff,
   fun _ => List.sorted_mergeSort dowRowLe_trans dowRowLe_total _,
   mem_clean_data_iff⟩

/-- Claim C10: every row of the cleaned Dow Jones dataset satisfies
`Upper_Bound = max(Value, MA)` and `Lower_Bound = min(Value, MA)`, hence
`Lower_Bound ≤ Value ≤ Upper_Bound` and `Lower_Bound ≤ MA ≤ Upper_Bound`; and
the recompute callback leaves the dataset — in particular the two derived
columns — unchanged. -/
theorem claim10_bound_columns (raw : List DowRawRow) (row : DowRow)
    (h : row ∈ clean_data raw) (df : List DowRow) (dr : Int × Int)
    (ymn ymx : Option ℚ) :
    row.upperBound = max row.value row.ma ∧
    row.lowerBound = min row.value row.ma ∧
    row.lowerBound ≤ row.value ∧ row.value ≤ row.upperBound ∧
    row.lowerBound ≤ row.ma ∧ row.ma ≤ row.upperBound ∧
    (update_chart_step df dr ymn ymx).2 = df := by
  obtain ⟨r, hr, hdate, hval, hma, hub, hlb⟩ := (mem_clean_data_iff raw row).1 h
  refine ⟨hub, hlb, ?_, ?_, ?_, ?_, rfl⟩
  · rw [hlb]
    exact min_le_left _ _
  · rw [hub]
    exact le_max_left _ _
  · rw [hlb]
    exact min_le_right _ _
  · rw [hub]
    exact le_max_right _ _

/-- A raw Dow Jones row with all three cells valid and Value = MA = 100. -/
def dowRawSample : DowRawRow :=
  { date := some 1, value := some 100, ma := some 100 }

/-- The cleaned row arising from `dowRawSample`. -/
def dowCleanSample : DowRow :=
  { date := 1, value := 100, ma := 100, upperBound := 100, lowerBound := 100 }

/-- Claim C10 witness: the bound-column invariant at a concrete one-row
dataset. -/
theorem claim10_witness :
    dowCleanSample.upperBound = max dowCleanSample.value dowCleanSample.ma ∧
    dowCleanSample.lowerBound = min dowCleanSample.value dowCleanSample.ma ∧
    dowCleanSample.lowerBound ≤ dowCleanSample.value ∧
    dowCleanSample.value ≤ dowCleanSample.upperBound ∧
    dowCleanSample.lowerBound ≤ dowCleanSample.ma ∧
    dowCleanSample.ma ≤ dowCleanSample.upperBound ∧
    (update_chart_step [dowCleanSample] (0, 2) none none).2 = [dowCleanSample] :=
  claim10_bound_columns [dowRawSample] dowCleanSample
    (by
      have h : clean_data [dowRawSample] = [dowCleanSample] := by
        simp [clean_data, dowRawSample, dowCleanSample, List.filterMap_cons,
          List.mergeSort_singleton]
      rw [h]
      exact List.mem_singleton_self _)
    [dowCleanSample] (0, 2) none none
